import Mathlib

/-!
Verification of marketcalls/flask-login-app against its specification.

The Python sources (`app.py`, `config.py`, `forms.py`) are shallowly embedded
below: pure functions become Lean functions, the SQLAlchemy user table becomes
a `List User`, route handlers become functions from request data and store to a
response and an updated store.  `models.py` is not part of the provided
sources; the few behaviours that live there (password hashing/verification,
the unique database constraints) are modelled from the specification and
marked as such in their doc comments.
-/

namespace FlaskLogin

/-- A process environment: the variables visible to `os.getenv`. -/
structure Env where
  vars : List (String × String)
deriving DecidableEq, Repr

/-- Python `os.getenv(key)`: the value of `key`, or `none` when unset. -/
def Env.get (e : Env) (key : String) : Option String :=
  (e.vars.find? (fun p => p.1 = key)).map (fun p => p.2)

/-- Python `os.getenv(key, default)`. -/
def Env.getD (e : Env) (key dflt : String) : String :=
  (e.get key).getD dflt

/-- Python `int(s)` on the numeric strings used by `config.py`
(decimal digits only; `int` would raise on anything else). -/
def pyInt (s : String) : Nat :=
  s.data.foldl (fun n c => n * 10 + (c.toNat - Char.toNat '0')) 0

/-! ### config.py -/

/-- Embeds `Config.FLASK_ENV = os.getenv('FLASK_ENV', 'development')`. -/
def FLASK_ENV (e : Env) : String :=
  e.getD "FLASK_ENV" "development"

/-- Embeds `Config.SECRET_KEY = os.getenv('SECRET_KEY', 'dev-key-for-development-only')`. -/
def SECRET_KEY (e : Env) : String :=
  e.getD "SECRET_KEY" "dev-key-for-development-only"

/-- Embeds `Config.MIN_PASSWORD_LENGTH = int(os.getenv('MIN_PASSWORD_LENGTH', '12'))`. -/
def MIN_PASSWORD_LENGTH (e : Env) : Nat :=
  pyInt (e.getD "MIN_PASSWORD_LENGTH" "12")

/-- Embeds `Config.DEFAULT_RATE_LIMIT_DAY = os.getenv('DEFAULT_RATE_LIMIT_DAY', '200')`. -/
def DEFAULT_RATE_LIMIT_DAY (e : Env) : String :=
  e.getD "DEFAULT_RATE_LIMIT_DAY" "200"

/-- Embeds `Config.DEFAULT_RATE_LIMIT_HOUR = os.getenv('DEFAULT_RATE_LIMIT_HOUR', '50')`. -/
def DEFAULT_RATE_LIMIT_HOUR (e : Env) : String :=
  e.getD "DEFAULT_RATE_LIMIT_HOUR" "50"

/-- Embeds `Config.LOGIN_RATE_LIMIT = os.getenv('LOGIN_RATE_LIMIT', '5/minute')`. -/
def LOGIN_RATE_LIMIT (e : Env) : String :=
  e.getD "LOGIN_RATE_LIMIT" "5/minute"

/-- Embeds `Config.REGISTER_RATE_LIMIT = os.getenv('REGISTER_RATE_LIMIT', '3/hour')`. -/
def REGISTER_RATE_LIMIT (e : Env) : String :=
  e.getD "REGISTER_RATE_LIMIT" "3/hour"

/-! ### forms.py: PasswordValidator -/

/-- Python `str.isupper` on the ASCII letters relevant here. -/
def pyIsUpper (c : Char) : Bool :=
  'A' ≤ c && c ≤ 'Z'

/-- Python `str.islower` on the ASCII letters relevant here. -/
def pyIsLower (c : Char) : Bool :=
  'a' ≤ c && c ≤ 'z'

/-- Python `str.isdigit` on the ASCII digits relevant here. -/
def pyIsDigit (c : Char) : Bool :=
  '0' ≤ c && c ≤ '9'

/-- The character class of the regex in `PasswordValidator.__call__`:
`[!@#$%^&*()\-_=+{};:,<.>]`. -/
def specialChars : List Char :=
  ['!', '@', '#', '$', '%', '^', '&', '*', '(', ')', '-', '_', '=', '+',
   '\x7b', '\x7d', ';', ':', ',', '<', '.', '>']

/-- Embeds `PasswordValidator.__call__` (forms.py lines 13-34): raises the first
failing check as a `ValidationError`; `none` means the password is accepted.
Note the length bound is the literal `12`, not `Config.MIN_PASSWORD_LENGTH`. -/
def passwordValidatorError (password : String) : Option String :=
  if password.length < 12 then
    some "Password must be at least 12 characters long."
  else if !password.data.any pyIsUpper then
    some "Password must contain at least one uppercase letter."
  else if !password.data.any pyIsLower then
    some "Password must contain at least one lowercase letter."
  else if !password.data.any pyIsDigit then
    some "Password must contain at least one number."
  else if !password.data.any (fun c => specialChars.contains c) then
    some "Password must contain at least one special character."
  else
    none

/-- The validator accepts a password when no check raises. -/
def passwordAccepted (password : String) : Bool :=
  (passwordValidatorError password).isNone

/-- The environment used to refute C1: `MIN_PASSWORD_LENGTH` configured to 8. -/
def envMinLen8 : Env :=
  ⟨[("MIN_PASSWORD_LENGTH", "8")]⟩

/-! ### config.py: configuration classes and startup -/

/-- Python `str.upper` on the ASCII flag values used by `config.py`. -/
def pyUpper (s : String) : String :=
  ⟨s.data.map Char.toUpper⟩

/-- An `os.getenv(key, dflt).upper() == 'TRUE'` flag. -/
def envFlag (e : Env) (key dflt : String) : Bool :=
  pyUpper (e.getD key dflt) == "TRUE"

/-- The two configuration classes defined in `config.py`. -/
inductive ConfigClass where
  | development
  | production
deriving DecidableEq, Repr

/-- The `config` dictionary at the bottom of `config.py` (the `'default'` key
maps to `DevelopmentConfig`, which is also the fallback of `get_config`). -/
def configDict (name : String) : Option ConfigClass :=
  if name = "development" then some .development
  else if name = "production" then some .production
  else none

/-- Embeds `get_config()` (config.py lines 138-141): picks the configuration class
named by `FLASK_ENV`, falling back to `DevelopmentConfig`.  It returns the
class object itself, never an instance. -/
def get_config (e : Env) : ConfigClass :=
  (configDict (e.getD "FLASK_ENV" "development")).getD .development

/-- The class attributes Flask's `config.from_object` copies into the app
configuration (restricted to the fields the claims mention). -/
structure FlaskConfig where
  FLASK_ENV : String
  SECRET_KEY : String
  DEBUG : Bool
  FORCE_HTTPS : Bool
  SESSION_COOKIE_SECURE : Bool
  MIN_PASSWORD_LENGTH : Nat
  LOGIN_RATE_LIMIT : String
  REGISTER_RATE_LIMIT : String
  DEFAULT_RATE_LIMIT_DAY : String
  DEFAULT_RATE_LIMIT_HOUR : String
deriving DecidableEq, Repr

/-- Embeds `app.config.from_object(...)` applied to a configuration class: Flask's
`from_object` reads the uppercase attributes of the object it is given; it
does not instantiate a class, so no `__init__` body runs. -/
def from_object (e : Env) : ConfigClass → FlaskConfig
  | .development =>
    { FLASK_ENV := FLASK_ENV e
      SECRET_KEY := SECRET_KEY e
      DEBUG := true
      FORCE_HTTPS := envFlag e "FORCE_HTTPS" "FALSE"
      SESSION_COOKIE_SECURE := envFlag e "SECURE_COOKIES" "FALSE"
      MIN_PASSWORD_LENGTH := MIN_PASSWORD_LENGTH e
      LOGIN_RATE_LIMIT := LOGIN_RATE_LIMIT e
      REGISTER_RATE_LIMIT := REGISTER_RATE_LIMIT e
      DEFAULT_RATE_LIMIT_DAY := DEFAULT_RATE_LIMIT_DAY e
      DEFAULT_RATE_LIMIT_HOUR := DEFAULT_RATE_LIMIT_HOUR e }
  | .production =>
    { FLASK_ENV := FLASK_ENV e
      SECRET_KEY := SECRET_KEY e
      DEBUG := false
      FORCE_HTTPS := true
      SESSION_COOKIE_SECURE := true
      MIN_PASSWORD_LENGTH := MIN_PASSWORD_LENGTH e
      LOGIN_RATE_LIMIT := LOGIN_RATE_LIMIT e
      REGISTER_RATE_LIMIT := REGISTER_RATE_LIMIT e
      DEFAULT_RATE_LIMIT_DAY := DEFAULT_RATE_LIMIT_DAY e
      DEFAULT_RATE_LIMIT_HOUR := DEFAULT_RATE_LIMIT_HOUR e }

/-- Embeds `ProductionConfig.__init__` (config.py lines 126-129): raises `ValueError`
when the environment variable `SECRET_KEY` literally equals the development
default.  Note the comparison is against `os.getenv('SECRET_KEY')` with no
default, so an *unset* `SECRET_KEY` does not trigger it either. -/
def productionConfigInit (e : Env) : Except String Unit :=
  if e.get "SECRET_KEY" = some "dev-key-for-development-only" then
    .error "SECRET_KEY must be set to a secure value in production!"
  else
    .ok ()

/-- Application startup (app.py lines 13-15):
`app.config.from_object(get_config())`.  `get_config()` returns the class,
`from_object` reads its attributes without instantiating it, so
`ProductionConfig.__init__` never runs and startup always succeeds. -/
def appStartup (e : Env) : Except String FlaskConfig :=
  .ok (from_object e (get_config e))

/-- Whether startup completed without raising. -/
def startupSucceeds (e : Env) : Bool :=
  match appStartup e with
  | .ok _ => true
  | .error _ => false

/-- A production environment still carrying the default development secret. -/
def envProdDefaultKey : Env :=
  ⟨[("FLASK_ENV", "production"), ("SECRET_KEY", "dev-key-for-development-only")]⟩

/-! ### models.py: the User table

`models.py` is not among the provided sources; `app.py` and `forms.py` import
`db` and `User` from it.  The record shape follows the spec's data model
(unique identifier, username, email, password hash); the behaviours that live
in `models.py` — password hashing/verification and the database's unique
constraints — are modelled from the spec and say so in their doc comments. -/

/-- A persisted user record. -/
structure User where
  id : Nat
  username : String
  email : String
  passwordHash : String
deriving DecidableEq, Repr

/-- The user table. -/
abbrev Store := List User

/-- Embeds `User.query.filter_by(email=...).first()`. -/
def find_by_email (store : Store) (email : String) : Option User :=
  store.find? (fun u => u.email = email)

/-- Embeds `User.query.filter_by(username=...).first()`. -/
def find_by_username (store : Store) (username : String) : Option User :=
  store.find? (fun u => u.username = username)

/-- Embeds `User.query.get(i)`. -/
def query_get (store : Store) (i : Nat) : Option User :=
  store.find? (fun u => u.id = i)

/-- The autoincrement primary key the database assigns to a fresh row. -/
def nextId (store : Store) : Nat :=
  store.foldl (fun m u => max m u.id) 0 + 1

/-- Modelled from the spec: `models.py` (not under src/) stores the password
"hashed with a memory/CPU-hard algorithm"; the hash function is abstracted as
the parameter `H`.  `check_password` compares the hash of the submitted raw
password against the stored hash. -/
def check_password (H : String → String) (u : User) (raw : String) : Bool :=
  u.passwordHash == H raw

/-- Modelled from the spec: `models.py` (not under src/) declares unique
constraints on username and email at the persistence layer ("unique
constraints at the persistence layer, not just application-level checks").
An insert that collides with an existing row fails and leaves the table
unchanged. -/
def commitInsert (store : Store) (u : User) : Except String Store :=
  if store.any (fun v => v.username == u.username || v.email == u.email) then
    .error "IntegrityError: UNIQUE constraint failed"
  else
    .ok (store ++ [u])

/-- Modelled from the spec: committing an update of row `i` fails on a
unique-constraint collision with any other row, rolling back and leaving the
table unchanged; otherwise row `i` receives the new username, email and
(when given) password hash. -/
def commitUpdate (store : Store) (i : Nat) (username email : String)
    (newHash : Option String) : Except String Store :=
  if store.any (fun v => v.id != i && (v.username == username || v.email == email)) then
    .error "IntegrityError: UNIQUE constraint failed"
  else
    .ok (store.map (fun v =>
      if v.id = i then
        { v with username := username, email := email,
                 passwordHash := newHash.getD v.passwordHash }
      else v))

/-! ### forms.py: field validators and the three forms -/

/-- ASCII whitespace, as stripped by Python `str.strip`. -/
def isSpaceChar (c : Char) : Bool :=
  c == ' ' || c == '\t' || c == '\n' || c == '\r'

/-- Python `str.strip` on the ASCII strings relevant here. -/
def pyStrip (s : String) : String :=
  ⟨((s.data.dropWhile isSpaceChar).reverse.dropWhile isSpaceChar).reverse⟩

/-- WTForms `DataRequired`: fails on falsy or whitespace-only data. -/
def dataRequiredOk (s : String) : Bool :=
  !(pyStrip s == "")

/-- WTForms `Length(min=lo, max=hi)`. -/
def lengthOk (lo hi : Nat) (s : String) : Bool :=
  decide (lo ≤ s.length) && decide (s.length ≤ hi)

/-- A login form submission together with the request's `next` query
parameter. -/
structure LoginRequest where
  email : String
  password : String
  remember : Bool
  next_page : Option String
deriving DecidableEq, Repr

/-- Validity of `LoginForm`: `email` carries `DataRequired()` and `Email()` (the
format check of the external Email validator is abstracted as `emailOk`),
`password` carries `DataRequired()`. -/
def loginFormValid (emailOk : String → Bool) (req : LoginRequest) : Bool :=
  dataRequiredOk req.email && emailOk req.email && dataRequiredOk req.password

/-- A registration form submission. -/
structure RegistrationSubmission where
  username : String
  email : String
  password : String
  confirm_password : String
deriving DecidableEq, Repr

/-- The messages raised by `RegistrationForm.validate_username` and
`RegistrationForm.validate_email` (forms.py lines 43-51) when the submitted
username or email already belongs to a stored user. -/
def registrationDuplicateErrors (store : Store) (sub : RegistrationSubmission) :
    List String :=
  (if (find_by_username store sub.username).isSome then
    ["That username is already taken. Please choose a different one."]
  else []) ++
  (if (find_by_email store sub.email).isSome then
    ["That email is already registered. Please choose a different one."]
  else [])

/-- Validity of `RegistrationForm`: the per-field validator chains plus the
inline `validate_username` / `validate_email` duplicate checks. -/
def registrationFormValid (emailOk : String → Bool) (store : Store)
    (sub : RegistrationSubmission) : Bool :=
  dataRequiredOk sub.username && lengthOk 2 20 sub.username &&
  dataRequiredOk sub.email && emailOk sub.email &&
  dataRequiredOk sub.password && passwordAccepted sub.password &&
  dataRequiredOk sub.confirm_password && (sub.confirm_password == sub.password) &&
  (registrationDuplicateErrors store sub).isEmpty

/-- A profile form submission. -/
structure ProfileSubmission where
  username : String
  email : String
  password : String
  confirm_password : String
deriving DecidableEq, Repr

/-- Validity of `ProfileForm` (forms.py lines 59-64).  The password field's
validator chain is `[PasswordValidator()]` with no `Optional()`, so the
validator also runs on an empty password — and rejects it for its length. -/
def profileFormValid (emailOk : String → Bool) (sub : ProfileSubmission) : Bool :=
  dataRequiredOk sub.username && lengthOk 2 20 sub.username &&
  dataRequiredOk sub.email && emailOk sub.email &&
  passwordAccepted sub.password &&
  (sub.confirm_password == sub.password)

/-! ### app.py: route handlers -/

/-- A flash message: text and category. -/
abbrev Flash := String × String

/-- The responses the handlers produce.  `serverError` stands for an
exception escaping the handler (Flask's 500 page). -/
inductive Response where
  | redirect (target : String) (flashes : List Flash)
  | render (template : String) (flashes : List Flash)
  | serverError (message : String)
deriving DecidableEq, Repr

/-- The `login` view (app.py lines 90-107), reached once the rate limiter has
admitted the request.  Returns the response and the session established by
`login_user` — the user's id and the remember flag — or `none` when no
session is created. -/
def loginHandler (emailOk : String → Bool) (H : String → String)
    (authenticated : Bool) (store : Store) (req : LoginRequest) :
    Response × Option (Nat × Bool) :=
  if authenticated then
    (.redirect "/dashboard" [], none)
  else if loginFormValid emailOk req then
    match find_by_email store req.email with
    | some user =>
      if check_password H user req.password then
        let target :=
          match req.next_page with
          | some n => if n ≠ "" then n else "/dashboard"
          | none => "/dashboard"
        (.redirect target [("Login successful!", "success")],
         some (user.id, req.remember))
      else
        (.render "login.html"
          [("Login unsuccessful. Please check email and password.", "danger")],
         none)
    | none =>
      (.render "login.html"
        [("Login unsuccessful. Please check email and password.", "danger")],
       none)
  else
    (.render "login.html" [], none)

/-- The `register` view (app.py lines 109-128), reached once the rate limiter
has admitted the request.  Returns the response and the updated table. -/
def registerHandler (emailOk : String → Bool) (H : String → String)
    (authenticated : Bool) (store : Store) (sub : RegistrationSubmission) :
    Response × Store :=
  if authenticated then
    (.redirect "/dashboard" [], store)
  else if registrationFormValid emailOk store sub then
    match commitInsert store
        { id := nextId store, username := sub.username, email := sub.email,
          passwordHash := H sub.password } with
    | .ok store2 =>
      (.redirect "/login"
        [("Your account has been created! You can now log in.", "success")],
       store2)
    | .error msg => (.serverError msg, store)
  else
    (.render "register.html" [], store)

/-- The `profile` view on POST (app.py lines 141-161), auth required; `uid` is
the current user's id.  The password hash is replaced only when the submitted
password field is non-empty. -/
def profileHandler (emailOk : String → Bool) (H : String → String)
    (store : Store) (uid : Nat) (sub : ProfileSubmission) : Response × Store :=
  if profileFormValid emailOk sub then
    match commitUpdate store uid sub.username sub.email
        (if sub.password ≠ "" then some (H sub.password) else none) with
    | .ok store2 =>
      (.redirect "/profile" [("Your profile has been updated!", "success")], store2)
    | .error msg => (.serverError msg, store)
  else
    (.render "profile.html" [], store)

/-- Embeds `load_user` (app.py lines 82-84): `User.query.get(int(user_id))`. -/
def load_user (store : Store) (user_id : Nat) : Option User :=
  query_get store user_id

/-- The request's authentication state. -/
inductive AuthState where
  | anonymous
  | authenticated (u : User)
deriving DecidableEq, Repr

/-- Flask-Login's per-request resolution: the session's stored user id is
passed to the registered `user_loader`; a loader returning `None` leaves the
request anonymous. -/
def resolveSession (store : Store) (sessionUserId : Option Nat) : AuthState :=
  match sessionUserId with
  | none => .anonymous
  | some uid =>
    match load_user store uid with
    | some u => .authenticated u
    | none => .anonymous

/-! ### app.py: Flask-Limiter wiring (lines 71-80 and the route decorators) -/

/-- Split a character list at every occurrence of `sep`. -/
def splitChar (sep : Char) : List Char → List Char → List (List Char)
  | [], acc => [acc.reverse]
  | c :: rest, acc =>
    if c == sep then acc.reverse :: splitChar sep rest []
    else splitChar sep rest (c :: acc)

/-- Window length in seconds for flask-limiter's granularity names. -/
def windowSeconds (w : String) : Option Nat :=
  if w == "second" then some 1
  else if w == "minute" then some 60
  else if w == "hour" then some 3600
  else if w == "day" then some 86400
  else none

/-- A non-empty all-digit character list read as a number. -/
def digitsToNat (cs : List Char) : Option Nat :=
  if cs.isEmpty || !cs.all pyIsDigit then none
  else some (cs.foldl (fun n c => n * 10 + (c.toNat - Char.toNat '0')) 0)

/-- Parse one flask-limiter rate string.  The repository uses the two forms
`"5/minute"` (the route decorators) and `"200 per day"` (the default limits
assembled in app.py lines 71-74).  The result is (count, window seconds). -/
def parseRateLimit (s : String) : Option (Nat × Nat) :=
  match splitChar '/' s.data [] with
  | [n, w] =>
    match digitsToNat n, windowSeconds (String.mk w) with
    | some k, some ws => some (k, ws)
    | _, _ => none
  | _ =>
    match splitChar ' ' s.data [] with
    | [n, p, w] =>
      if String.mk p == "per" then
        match digitsToNat n, windowSeconds (String.mk w) with
        | some k, some ws => some (k, ws)
        | _, _ => none
      else none
    | _ => none

/-- The default limits handed to `Limiter` (app.py lines 71-74):
`[f"{DEFAULT_RATE_LIMIT_DAY} per day", f"{DEFAULT_RATE_LIMIT_HOUR} per hour"]`. -/
def defaultLimits (e : Env) : List String :=
  [DEFAULT_RATE_LIMIT_DAY e ++ " per day", DEFAULT_RATE_LIMIT_HOUR e ++ " per hour"]

/-- The limits governing `/login`: the decorator
`limiter.limit(app.config.get('LOGIN_RATE_LIMIT', '5/minute'))` plus the
limiter's default limits, which apply to every route. -/
def loginRouteLimits (e : Env) : List (Nat × Nat) :=
  (parseRateLimit (LOGIN_RATE_LIMIT e)).toList ++
    (defaultLimits e).filterMap parseRateLimit

/-- The limits governing `/register`: the decorator
`limiter.limit(app.config.get('REGISTER_RATE_LIMIT', '3/hour'))` plus the
default limits. -/
def registerRouteLimits (e : Env) : List (Nat × Nat) :=
  (parseRateLimit (REGISTER_RATE_LIMIT e)).toList ++
    (defaultLimits e).filterMap parseRateLimit

/-- Two instants (seconds) fall in the same fixed window of length `w`.
Models flask-limiter's default fixed-window strategy. -/
def sameWindow (w t1 t2 : Nat) : Bool :=
  t1 / w == t2 / w

/-- A request at time `t` exceeds limit `(n, w)` given the timestamps of this
client's previous requests to the route: `n` or more of them already fell in
the current window. -/
def limitExceeded (limit : Nat × Nat) (history : List Nat) (t : Nat) : Bool :=
  decide (limit.1 ≤ (history.filter (fun t2 => sameWindow limit.2 t t2)).length)

/-- The limiter admits a request only when no applicable limit is exceeded.
Modelled from flask-limiter's behaviour, keyed by `get_remote_address`: the
`history` is the per-address request log for this route. -/
def requestAllowed (limits : List (Nat × Nat)) (history : List Nat) (t : Nat) : Bool :=
  limits.all (fun L => !limitExceeded L history t)

/-- The `/login` route behind its rate limiter: the limiter runs before the view
function; over the limit it answers 429 (`none` here) and the view — and with
it every Credential Store access — is never invoked. -/
def guardedLogin (e : Env) (emailOk : String → Bool) (H : String → String)
    (authenticated : Bool) (store : Store) (req : LoginRequest)
    (history : List Nat) (t : Nat) : Option (Response × Option (Nat × Bool)) :=
  if requestAllowed (loginRouteLimits e) history t then
    some (loginHandler emailOk H authenticated store req)
  else
    none

/-- The empty environment: every configuration value takes its default. -/
def env0 : Env := ⟨[]⟩

/-! ### Uniqueness invariant and operation sequences (C6) -/

/-- No two rows share a username or an email. -/
def uniqueUsers (store : Store) : Prop :=
  store.Pairwise (fun a b => a.username ≠ b.username ∧ a.email ≠ b.email)

/-- Rows carry pairwise-distinct primary keys. -/
def uniqueIds (store : Store) : Prop :=
  store.Pairwise (fun a b => a.id ≠ b.id)

/-- One store-mutating operation: a registration attempt or a profile
update. -/
inductive Op where
  | register (authenticated : Bool) (sub : RegistrationSubmission)
  | profile (uid : Nat) (sub : ProfileSubmission)
deriving DecidableEq, Repr

/-- Run a sequence of operations against the store, keeping each operation's
resulting table. -/
def runOps (emailOk : String → Bool) (H : String → String) (store : Store) :
    List Op → Store
  | [] => store
  | op :: rest =>
    let store2 :=
      match op with
      | .register authenticated sub => (registerHandler emailOk H authenticated store sub).2
      | .profile uid sub => (profileHandler emailOk H store uid sub).2
    runOps emailOk H store2 rest

/-! ### The claim-side notion of an external redirect target (C4) -/

/-- Whether `pre` is a prefix of `cs`. -/
def prefixOf : List Char → List Char → Bool
  | [], _ => true
  | _ :: _, [] => false
  | a :: as, b :: bs => a == b && prefixOf as bs

/-- Stated from the claim's words: a redirect target pointing at an external
host — an absolute `http://` or `https://` URL or a protocol-relative `//`
URL — rather than a path local to the application. -/
def pointsToExternalHost (url : String) : Bool :=
  prefixOf "http://".data url.data ||
  prefixOf "https://".data url.data ||
  prefixOf "//".data url.data

/-! ### The spec-side reading of the validator's error reporting (C8) -/

/-- The five composition rules of the password policy. -/
inductive PasswordRule where
  | length
  | uppercase
  | lowercase
  | digit
  | special
deriving DecidableEq, Repr

/-- Stated from the spec's words: all rules a candidate password violates, in
the fixed order length, uppercase, lowercase, digit, special. -/
def violatedRules (p : String) : List PasswordRule :=
  (if p.length < 12 then [PasswordRule.length] else []) ++
  (if !p.data.any pyIsUpper then [PasswordRule.uppercase] else []) ++
  (if !p.data.any pyIsLower then [PasswordRule.lowercase] else []) ++
  (if !p.data.any pyIsDigit then [PasswordRule.digit] else []) ++
  (if !p.data.any (fun c => specialChars.contains c) then [PasswordRule.special] else [])

/-- The distinct message the validator attaches to each rule. -/
def ruleMessage : PasswordRule → String
  | .length => "Password must be at least 12 characters long."
  | .uppercase => "Password must contain at least one uppercase letter."
  | .lowercase => "Password must contain at least one lowercase letter."
  | .digit => "Password must contain at least one number."
  | .special => "Password must contain at least one special character."

/-! ### Concrete fixtures for the closed evaluations below -/

/-- A concrete stand-in for the external Email format validator. -/
def emailOkC (s : String) : Bool :=
  s.data.contains '@'

/-- A concrete stand-in for the password hash function. -/
def hashC (s : String) : String :=
  "hash:" ++ s

/-- A stored user whose raw password is `CorrectHorse1!`. -/
def aliceC : User :=
  { id := 1, username := "alice", email := "alice@example.com",
    passwordHash := hashC "CorrectHorse1!" }

/-- A one-row table. -/
def storeC : Store := [aliceC]

/-- A caller-supplied `next` value on a foreign host. -/
def evilNext : String := "https://evil.example/phish"

end FlaskLogin

namespace FlaskLogin

/-- C1: the claim says the validator accepts a password iff its length is at
least the configured `MIN_PASSWORD_LENGTH` and it has the four character
classes.  With `MIN_PASSWORD_LENGTH` configured to 8, the password
`"Aa1!aaaa"` (length 8, all four classes present) is nevertheless rejected:
the validator compares against a hard-coded 12, never against the
configuration.  So the claim, instantiated at this environment and password,
is false. -/
theorem C1_counterexample :
    ¬ (passwordAccepted "Aa1!aaaa" = true ↔
        (MIN_PASSWORD_LENGTH envMinLen8 ≤ "Aa1!aaaa".length ∧
         "Aa1!aaaa".data.any pyIsUpper = true ∧
         "Aa1!aaaa".data.any pyIsLower = true ∧
         "Aa1!aaaa".data.any pyIsDigit = true ∧
         "Aa1!aaaa".data.any (fun c => specialChars.contains c) = true)) := by
  decide

/-- C1 (amended): the validator accepts a password iff its length is at least
the hard-coded 12 and it contains at least one uppercase letter, one lowercase
letter, one digit and one special character from the fixed set; the configured
`MIN_PASSWORD_LENGTH` plays no role. -/
theorem C1_amended_validator_accepts_iff (p : String) :
    passwordAccepted p = true ↔
      (12 ≤ p.length ∧
       p.data.any pyIsUpper = true ∧
       p.data.any pyIsLower = true ∧
       p.data.any pyIsDigit = true ∧
       p.data.any (fun c => specialChars.contains c) = true) := by
  unfold passwordAccepted passwordValidatorError
  split_ifs with h1 h2 h3 h4 h5 <;> simp_all

/-- C2: with `FLASK_ENV=production` and the secret key still the development
default, the claim says startup fails.  It does not: `get_config()` hands the
`ProductionConfig` class to `from_object`, which never instantiates it, so the
guard in `ProductionConfig.__init__` is dead code and startup succeeds.  The
guard itself *would* raise at exactly this environment, which shows the check
was intended — the wiring, not the claim, is at fault. -/
theorem C2_startup_does_not_fail :
    FLASK_ENV envProdDefaultKey = "production" ∧
    SECRET_KEY envProdDefaultKey = "dev-key-for-development-only" ∧
    get_config envProdDefaultKey = ConfigClass.production ∧
    startupSucceeds envProdDefaultKey = true ∧
    productionConfigInit envProdDefaultKey =
      Except.error "SECRET_KEY must be set to a secure value in production!" := by
  exact ⟨rfl, rfl, rfl, rfl, rfl⟩

/-- C3: the claim says a profile submission with an empty password field
validates (the policy is skipped) and the update succeeds.  It does not:
`ProfileForm.password` carries `PasswordValidator()` without `Optional()`, so
the validator runs on the empty string and rejects it for its length.  At a
concrete well-formed submission with a blank password the form is invalid and
the handler re-renders without touching the store — username and email are
not updated either, contrary to the claim.  The `if form.password.data:`
guard in the handler shows blank-means-no-change was the intent. -/
theorem C3_blank_password_fails_validation :
    passwordValidatorError "" = some "Password must be at least 12 characters long." ∧
    profileFormValid emailOkC ⟨"alice2", "alice2@example.com", "", ""⟩ = false ∧
    profileHandler emailOkC hashC storeC 1 ⟨"alice2", "alice2@example.com", "", ""⟩ =
      (.render "profile.html" [], storeC) ∧
    check_password hashC aliceC "CorrectHorse1!" = true := by
  decide

/-- C4: the claim says a `next` value pointing at an external host is
rejected or ignored in favour of the safe default.  It is not: the login view
redirects to `next_page` with no locality check, so a successful login with
`next=https://evil.example/phish` answers a redirect to that foreign host —
an open redirect, against the spec's explicit requirement. -/
theorem C4_open_redirect :
    pointsToExternalHost evilNext = true ∧
    evilNext ≠ "/dashboard" ∧
    loginHandler emailOkC hashC false storeC
        ⟨"alice@example.com", "CorrectHorse1!", false, some evilNext⟩ =
      (.redirect evilNext [("Login successful!", "success")], some (1, false)) := by
  decide

/-- C5: a failed login looks the same whether the email was unregistered or
the password wrong — same template, same flash message
`Login unsuccessful. Please check email and password.` with category
`danger`, and no session in either case. -/
theorem C5_nondistinguishing_failure (emailOk : String → Bool)
    (H : String → String) (store : Store) (u : User) (req1 req2 : LoginRequest)
    (h1 : find_by_email store req1.email = some u)
    (h2 : check_password H u req1.password = false)
    (h3 : find_by_email store req2.email = none)
    (hv1 : loginFormValid emailOk req1 = true)
    (hv2 : loginFormValid emailOk req2 = true) :
    loginHandler emailOk H false store req1 =
      (.render "login.html"
        [("Login unsuccessful. Please check email and password.", "danger")], none) ∧
    loginHandler emailOk H false store req2 =
      (.render "login.html"
        [("Login unsuccessful. Please check email and password.", "danger")], none) := by
  unfold loginHandler
  simp [hv1, hv2, h1, h2, h3]

/-- C5, instantiated: wrong password for the registered `alice@example.com`
and any password for the unregistered `bob@example.com` produce identical
responses. -/
theorem C5_nondistinguishing_failure_witness :
    loginHandler emailOkC hashC false storeC ⟨"alice@example.com", "wrong", false, none⟩ =
      (.render "login.html"
        [("Login unsuccessful. Please check email and password.", "danger")], none) ∧
    loginHandler emailOkC hashC false storeC ⟨"bob@example.com", "whatever", false, none⟩ =
      (.render "login.html"
        [("Login unsuccessful. Please check email and password.", "danger")], none) :=
  C5_nondistinguishing_failure emailOkC hashC storeC aliceC
    ⟨"alice@example.com", "wrong", false, none⟩
    ⟨"bob@example.com", "whatever", false, none⟩
    (by decide) (by decide) (by decide) (by decide) (by decide)

/-- C8: the validator reports exactly the first violated rule, in the fixed
order length, uppercase, lowercase, digit, special, and the five reasons are
pairwise distinct messages. -/
theorem C8_first_failing_rule :
    (∀ p : String,
      passwordValidatorError p = ((violatedRules p).head?).map ruleMessage) ∧
    ([PasswordRule.length, PasswordRule.uppercase, PasswordRule.lowercase,
      PasswordRule.digit, PasswordRule.special].map ruleMessage).Pairwise (· ≠ ·) := by
  refine ⟨fun p => ?_, by decide⟩
  unfold passwordValidatorError violatedRules
  split_ifs <;> simp [ruleMessage]

/-- C9: a session naming a user id held by no stored record resolves to no
user — `load_user` returns `None` and the request proceeds as Anonymous. -/
theorem C9_unknown_session_is_anonymous (store : Store) (uid : Nat)
    (h : ∀ u ∈ store, u.id ≠ uid) :
    load_user store uid = none ∧
    resolveSession store (some uid) = AuthState.anonymous := by
  have hfind : load_user store uid = none := by
    unfold load_user query_get
    rw [List.find?_eq_none]
    intro u hu
    simp [h u hu]
  exact ⟨hfind, by simp [resolveSession, hfind]⟩

/-- C9, instantiated: the one-row table has no user 42. -/
theorem C9_unknown_session_is_anonymous_witness :
    load_user storeC 42 = none ∧
    resolveSession storeC (some 42) = AuthState.anonymous :=
  C9_unknown_session_is_anonymous storeC 42 (by decide)

/-- C10: an already-authenticated request to `/login` or `/register` is
answered with a redirect to `/dashboard` for every store and submission —
no session is established, the store is untouched, and the response does not
depend on the form data or on the store, so nothing was validated or
queried. -/
theorem C10_authenticated_redirects_to_dashboard (emailOk : String → Bool)
    (H : String → String) (store : Store) (req : LoginRequest)
    (sub : RegistrationSubmission) :
    loginHandler emailOk H true store req = (.redirect "/dashboard" [], none) ∧
    registerHandler emailOk H true store sub = (.redirect "/dashboard" [], store) :=
  ⟨rfl, rfl⟩

/-! ### Helper lemmas for the uniqueness invariant -/

theorem foldl_max_init_le (l : List User) (init : Nat) :
    init ≤ l.foldl (fun m u => max m u.id) init := by
  induction l generalizing init with
  | nil => exact Nat.le_refl _
  | cons a l ih => exact Nat.le_trans (Nat.le_max_left _ _) (ih _)

theorem id_le_foldl_max (l : List User) (init : Nat) (v : User) (hv : v ∈ l) :
    v.id ≤ l.foldl (fun m u => max m u.id) init := by
  induction l generalizing init with
  | nil => cases hv
  | cons a l ih =>
    rcases List.mem_cons.mp hv with rfl | h
    · exact Nat.le_trans (Nat.le_max_right _ _) (foldl_max_init_le _ _)
    · exact ih _ h

theorem id_ne_nextId (store : Store) (v : User) (hv : v ∈ store) :
    v.id ≠ nextId store := by
  have := id_le_foldl_max store 0 v hv
  unfold nextId
  omega

theorem commitInsert_ok (store : Store) (u : User) (store2 : Store)
    (h : commitInsert store u = .ok store2) :
    store2 = store ++ [u] ∧
    ∀ v ∈ store, v.username ≠ u.username ∧ v.email ≠ u.email := by
  unfold commitInsert at h
  by_cases hc : store.any (fun v => v.username == u.username || v.email == u.email) = true
  · rw [if_pos hc] at h
    cases h
  · rw [if_neg hc] at h
    have hall := List.any_eq_false.mp (Bool.eq_false_iff.mpr hc)
    obtain rfl := (Except.ok.injEq _ _).mp h
    refine ⟨rfl, fun v hv => ?_⟩
    have := hall v hv
    simp at this
    exact this

theorem commitUpdate_ok (store : Store) (i : Nat) (username email : String)
    (newHash : Option String) (store2 : Store)
    (h : commitUpdate store i username email newHash = .ok store2) :
    store2 = store.map (fun v =>
      if v.id = i then
        { v with username := username, email := email,
                 passwordHash := newHash.getD v.passwordHash }
      else v) ∧
    ∀ v ∈ store, v.id ≠ i → v.username ≠ username ∧ v.email ≠ email := by
  unfold commitUpdate at h
  by_cases hc : store.any
      (fun v => v.id != i && (v.username == username || v.email == email)) = true
  · rw [if_pos hc] at h
    cases h
  · rw [if_neg hc] at h
    have hall := List.any_eq_false.mp (Bool.eq_false_iff.mpr hc)
    obtain rfl := (Except.ok.injEq _ _).mp h
    refine ⟨rfl, fun v hv hvi => ?_⟩
    have := hall v hv
    simp [hvi] at this
    exact this

theorem registerHandler_preserves (emailOk : String → Bool) (H : String → String)
    (authenticated : Bool) (store : Store) (sub : RegistrationSubmission)
    (hU : uniqueUsers store) (hI : uniqueIds store) :
    uniqueUsers (registerHandler emailOk H authenticated store sub).2 ∧
    uniqueIds (registerHandler emailOk H authenticated store sub).2 := by
  unfold registerHandler
  split_ifs with hauth hvalid
  · exact ⟨hU, hI⟩
  · cases hins : commitInsert store
        { id := nextId store, username := sub.username, email := sub.email,
          passwordHash := H sub.password } with
    | error msg => simp only [hins]; exact ⟨hU, hI⟩
    | ok store2 =>
      simp only [hins]
      obtain ⟨rfl, hguard⟩ := commitInsert_ok _ _ _ hins
      constructor
      · refine List.pairwise_append.mpr ⟨hU, by simp [uniqueUsers], ?_⟩
        intro a ha b hb
        simp only [List.mem_singleton] at hb
        subst hb
        exact hguard a ha
      · refine List.pairwise_append.mpr ⟨hI, by simp [uniqueIds], ?_⟩
        intro a ha b hb
        simp only [List.mem_singleton] at hb
        subst hb
        exact id_ne_nextId store a ha
  · exact ⟨hU, hI⟩

theorem profileHandler_preserves (emailOk : String → Bool) (H : String → String)
    (store : Store) (uid : Nat) (sub : ProfileSubmission)
    (hU : uniqueUsers store) (hI : uniqueIds store) :
    uniqueUsers (profileHandler emailOk H store uid sub).2 ∧
    uniqueIds (profileHandler emailOk H store uid sub).2 := by
  unfold profileHandler
  by_cases hvalid : profileFormValid emailOk sub = true
  · rw [if_pos hvalid]
    cases hupd : commitUpdate store uid sub.username sub.email
        (if sub.password ≠ "" then some (H sub.password) else none) with
    | error msg => exact ⟨hU, hI⟩
    | ok store2 =>
      obtain ⟨rfl, hguard⟩ := commitUpdate_ok _ _ _ _ _ _ hupd
      constructor
      · unfold uniqueUsers
        rw [List.pairwise_map]
        refine (hU.and hI).imp_of_mem ?_
        intro a b ha hb hab
        obtain ⟨⟨hun, hem⟩, hid⟩ := hab
        by_cases hai : a.id = uid <;> by_cases hbi : b.id = uid
        · exact absurd (hai.trans hbi.symm) hid
        · have hb2 := hguard b hb (fun hh => hbi hh)
          simp only [if_pos hai, if_neg hbi]
          exact ⟨fun hh => hb2.1 hh.symm, fun hh => hb2.2 hh.symm⟩
        · have ha2 := hguard a ha (fun hh => hai hh)
          simp only [if_neg hai, if_pos hbi]
          exact ⟨ha2.1, ha2.2⟩
        · simp only [if_neg hai, if_neg hbi]
          exact ⟨hun, hem⟩
      · unfold uniqueIds
        rw [List.pairwise_map]
        refine hI.imp_of_mem ?_
        intro a b ha hb hid
        split_ifs <;> exact hid
  · rw [if_neg hvalid]
    exact ⟨hU, hI⟩

theorem runOps_preserves (emailOk : String → Bool) (H : String → String)
    (ops : List Op) (store : Store)
    (hU : uniqueUsers store) (hI : uniqueIds store) :
    uniqueUsers (runOps emailOk H store ops) ∧
    uniqueIds (runOps emailOk H store ops) := by
  induction ops generalizing store with
  | nil => exact ⟨hU, hI⟩
  | cons op rest ih =>
    cases op with
    | register authenticated sub =>
      obtain ⟨h1, h2⟩ := registerHandler_preserves emailOk H authenticated store sub hU hI
      exact ih _ h1 h2
    | profile uid sub =>
      obtain ⟨h1, h2⟩ := profileHandler_preserves emailOk H store uid sub hU hI
      exact ih _ h1 h2

/-- C6: starting from a table with distinct primary keys and no shared
username or email, every sequence of registration and profile-update
operations keeps usernames and emails unique; and a registration colliding
with a stored username or email raises the duplicate field error and leaves
the table exactly as it was. -/
theorem C6_uniqueness_invariant (emailOk : String → Bool) (H : String → String)
    (store : Store) (hU : uniqueUsers store) (hI : uniqueIds store) :
    (∀ ops : List Op, uniqueUsers (runOps emailOk H store ops)) ∧
    (∀ sub : RegistrationSubmission,
      (∃ u ∈ store, u.username = sub.username ∨ u.email = sub.email) →
      registrationDuplicateErrors store sub ≠ [] ∧
      (registerHandler emailOk H false store sub).2 = store) := by
  constructor
  · intro ops
    exact (runOps_preserves emailOk H ops store hU hI).1
  · rintro sub ⟨u, hu, hcol⟩
    have hdup : registrationDuplicateErrors store sub ≠ [] := by
      unfold registrationDuplicateErrors
      rcases hcol with hcu | hce
      · have hsome : (find_by_username store sub.username).isSome := by
          unfold find_by_username
          rw [List.find?_isSome]
          exact ⟨u, hu, by simp [hcu]⟩
        simp [hsome]
      · have hsome : (find_by_email store sub.email).isSome := by
          unfold find_by_email
          rw [List.find?_isSome]
          exact ⟨u, hu, by simp [hce]⟩
        simp [hsome]
    refine ⟨hdup, ?_⟩
    have hempty : (registrationDuplicateErrors store sub).isEmpty = false := by
      simp [List.isEmpty_iff, hdup]
    have hinvalid : registrationFormValid emailOk store sub = false := by
      unfold registrationFormValid
      simp [hempty]
    unfold registerHandler
    simp [hinvalid]

/-- C6, instantiated: a registration and a profile update run from the
one-row table keep uniqueness, and registering the taken username `alice`
reports a duplicate and stores nothing. -/
theorem C6_uniqueness_invariant_witness :
    uniqueUsers (runOps emailOkC hashC storeC
      [Op.register false ⟨"bob", "bob@example.com", "Bbbb1!bbbbbb", "Bbbb1!bbbbbb"⟩,
       Op.profile 1 ⟨"alice9", "alice9@example.com", "", ""⟩]) ∧
    registrationDuplicateErrors storeC
      ⟨"alice", "new@example.com", "Aaaa1!aaaaaa", "Aaaa1!aaaaaa"⟩ ≠ [] ∧
    (registerHandler emailOkC hashC false storeC
      ⟨"alice", "new@example.com", "Aaaa1!aaaaaa", "Aaaa1!aaaaaa"⟩).2 = storeC := by
  obtain ⟨h1, h2⟩ := C6_uniqueness_invariant emailOkC hashC storeC
    (by unfold uniqueUsers; decide) (by unfold uniqueIds; decide)
  obtain ⟨hd, hs⟩ := h2 ⟨"alice", "new@example.com", "Aaaa1!aaaaaa", "Aaaa1!aaaaaa"⟩
    ⟨aliceC, by decide, Or.inl rfl⟩
  exact ⟨h1 _, hd, hs⟩

/-- C7: with the default configuration the `/login` route is limited to
5 per minute (plus the global 200 per day and 50 per hour defaults, which
also govern `/register` together with its own 3 per hour), and once a client
address has 5 requests in the current minute window the next one is answered
by the limiter alone — the login view, and with it any Credential Store
access, is never invoked. -/
theorem C7_rate_limits :
    loginRouteLimits env0 = [(5, 60), (200, 86400), (50, 3600)] ∧
    registerRouteLimits env0 = [(3, 3600), (200, 86400), (50, 3600)] ∧
    ∀ (emailOk : String → Bool) (H : String → String) (authenticated : Bool)
      (store : Store) (req : LoginRequest) (history : List Nat) (t : Nat),
      5 ≤ (history.filter (fun t2 => sameWindow 60 t t2)).length →
      guardedLogin env0 emailOk H authenticated store req history t = none := by
  refine ⟨by decide, by decide, ?_⟩
  intro emailOk H authenticated store req history t h5
  unfold guardedLogin
  have hex : limitExceeded (5, 60) history t = true := by
    simp [limitExceeded, h5]
  have hlim : loginRouteLimits env0 = [(5, 60), (200, 86400), (50, 3600)] := by decide
  have hallow : requestAllowed (loginRouteLimits env0) history t = false := by
    rw [hlim]
    simp [requestAllowed, hex]
  simp [hallow]

/-- C7, instantiated: five requests at seconds 1..5 exhaust the login limit;
the sixth at second 6 is rejected without reaching the view. -/
theorem C7_rate_limits_witness :
    guardedLogin env0 emailOkC hashC false storeC
      ⟨"alice@example.com", "CorrectHorse1!", false, none⟩ [1, 2, 3, 4, 5] 6 = none :=
  C7_rate_limits.2.2 emailOkC hashC false storeC
    ⟨"alice@example.com", "CorrectHorse1!", false, none⟩ [1, 2, 3, 4, 5] 6 (by decide)

end FlaskLogin
